import Mathlib

/-!
# Verification of the "Who Am I?" game session engine

Shallow embedding of the game gateway (`src/src/game`: `GameGateway` with its
handlers `handleStartGame`, `handleMakeGuess`, `startNewRound`,
`handleRoundTimeout`, `endGame`) and of `RoomsService.startGame`.

Modelling conventions:
* JavaScript `Map`s and plain objects used as string-keyed dictionaries are
  insertion-ordered association lists (`alookup` / `aset` / `adel`), matching
  JS semantics where `set` on an existing key updates in place and `delete`
  removes the entry, and `Object.keys` returns keys in insertion order.
* `setTimeout` handles are modelled as numbered tasks in a task list together
  with their delay in milliseconds; `clearTimeout` removes the task;
  a timer can fire only while its task is still in the list, and firing
  consumes the task.
* External collaborators (Prisma tables, the random-card service, wall-clock
  time) are modelled as explicit state components and oracle parameters:
  the card returned by `cardsService.getRandomCards` and the current time are
  arguments of the transition.
* Wall-clock timestamps on persisted rows (`startedAt` / `endedAt` /
  `createdAt`) are abstracted away; `findFirst` ordered by `createdAt`
  descending becomes "last inserted row".
* Socket emissions are recorded as a list: `Emit.toClient` for
  `client.emit`, `Emit.toRoom` for `server.to(roomId).emit`. A room-wide
  emission is delivered to every member of the room.
-/

namespace WhoAmI

/-! ## Insertion-ordered association lists (JS Map / object semantics) -/

def alookup {α : Type} : List (String × α) → String → Option α
  | [], _ => none
  | (k', v') :: t, k => if k' = k then some v' else alookup t k

def aset {α : Type} : List (String × α) → String → α → List (String × α)
  | [], k, v => [(k, v)]
  | (k', v') :: t, k, v => if k' = k then (k, v) :: t else (k', v') :: aset t k v

def adel {α : Type} : List (String × α) → String → List (String × α)
  | [], _ => []
  | (k', v') :: t, k => if k' = k then adel t k else (k', v') :: adel t k

/-! ## Data model (from `GameGateway` and the Prisma schema usage) -/

/-- A card as used by the gateway: `card.id`, `card.name`, `card.imageUrl`,
`card.difficulty`, `card.category`, `card.hints`. -/
structure Card where
  id : String
  name : String
  imageUrl : String
  difficulty : Nat
  category : String
  hints : List String
deriving DecidableEq, Repr

/-- The gateway's in-memory `GameState` interface, field for field. -/
structure GameState where
  roomId : String
  currentRound : Nat
  maxRounds : Nat
  timePerRound : Nat
  currentCard : Option Card
  roundStartTime : Option Nat
  scores : List (String × Nat)
  isActive : Bool
  currentGuesser : Option String
deriving DecidableEq, Repr

/-- A Prisma `room` row as read by the gateway and `RoomsService`:
`creatorId`, optional `guestId`, `status`, and the `settings` JSON
(only its `maxRounds` / `timePerRound` entries are modelled; the
category/difficulty filters only parameterize the external card service,
which is an oracle here). -/
structure Room where
  id : String
  creatorId : String
  guestId : Option String
  status : String
  settingsMaxRounds : Option Nat
  settingsTimePerRound : Option Nat
deriving DecidableEq, Repr

/-- A Prisma `game` row (timestamps abstracted). -/
structure GameRow where
  id : String
  roomId : String
  maxRounds : Nat
  timePerRound : Nat
  status : String
deriving DecidableEq, Repr

/-- A Prisma `gameCard` row. -/
structure GameCardRow where
  gameId : String
  cardId : String
  round : Nat
  isGuessed : Bool
  guessedBy : Option String
deriving DecidableEq, Repr

/-- A Prisma `gameResult` row. -/
structure GameResultRow where
  gameId : String
  userId : String
  score : Nat
  position : Nat
  correctGuesses : Nat
  totalRounds : Nat
deriving DecidableEq, Repr

/-- Socket events emitted by the modelled handlers. -/
inductive GEvent where
  | errorMsg (message : String)
  | gameStarted (gameId : String) (state : GameState)
  | newRound (round : Nat) (cardId cardName cardImageUrl : String)
      (difficulty : Nat) (category : String)
      (currentGuesser : Option String) (timeLimit : Nat)
  | correctGuess (guesser : String) (card : Card) (scores : List (String × Nat))
  | incorrectGuess (guesser : String) (guess : String)
  | roundTimeout (round : Nat) (correctAnswer : Option String)
  | gameEnded (finalScores : List (String × Nat)) (winner : String)
deriving DecidableEq, Repr

/-- An emission: `client.emit` targets one user, `server.to(roomId).emit`
broadcasts to the room. -/
inductive Emit where
  | toClient (userId : String) (ev : GEvent)
  | toRoom (roomId : String) (ev : GEvent)
deriving DecidableEq, Repr

/-- Pending `setTimeout` callbacks: the per-round timer stored in
`roomTimers`, and the anonymous 3-second delayed `startNewRound` call
(whose handle the source never stores). -/
inductive Task where
  | roundTimeout (roomId : String)
  | delayedStart (roomId : String)
deriving DecidableEq, Repr

/-- The gateway's mutable state plus the external tables it reads/writes. -/
structure World where
  gameStates : List (String × GameState)
  roomTimers : List (String × Nat)
  tasks : List (Nat × Nat × Task)
  nextId : Nat
  rooms : List (String × Room)
  roomMembers : List (String × List String)
  games : List GameRow
  gameCards : List GameCardRow
  gameResults : List GameResultRow
deriving DecidableEq, Repr

/-! ## Small JS helpers -/

/-- JS `s.toLowerCase()` (character-wise lowering). -/
def jsToLower (s : String) : String := String.mk (s.data.map Char.toLower)

/-- JS `x || d` on an optional numeric setting: `undefined` and `0` are falsy. -/
def jsOrNat (x : Option Nat) (d : Nat) : Nat :=
  match x with
  | none => d
  | some v => if v = 0 then d else v

/-- JS `scores[u] += 10` on a string-keyed object whose key `u` is present
(the gateway only bumps the current guesser, who is one of the two score
keys). -/
def bump10 : List (String × Nat) → String → List (String × Nat)
  | [], _ => []
  | (k, v) :: t, u => (k, if k = u then v + 10 else v) :: bump10 t u

/-- `Object.keys(scores).reduce((a, b) => scores[a] > scores[b] ? a : b)`:
fold over the keys in insertion order, keeping `a` only on strictly greater
score (ties go to the later key). -/
def jsWinner (scores : List (String × Nat)) : String :=
  match scores with
  | [] => ""
  | (k, _) :: t =>
    (t.map Prod.fst).foldl
      (fun a b =>
        if (alookup scores a).getD 0 > (alookup scores b).getD 0 then a else b) k

/-- `playerIds.sort((a, b) => scores[b] - scores[a])`: stable sort by
descending score (insertion sort; an element moves before another only when
its score is strictly greater). -/
def insertDesc (p : String × Nat) : List (String × Nat) → List (String × Nat)
  | [] => [p]
  | q :: t => if q.2 < p.2 then p :: q :: t else q :: insertDesc p t

def sortScoresDesc : List (String × Nat) → List (String × Nat)
  | [] => []
  | p :: t => insertDesc p (sortScoresDesc t)

/-- `prisma.game.findFirst({where: {roomId}, orderBy: {createdAt: 'desc'}})`:
the most recently inserted `game` row for the room. -/
def findLastGame (games : List GameRow) (roomId : String) : Option GameRow :=
  (games.filter (fun g => g.roomId == roomId)).getLast?

/-- `prisma.room.update({where: {id}, data: {status}})`. -/
def updateRoomStatus : List (String × Room) → String → String → List (String × Room)
  | [], _, _ => []
  | (k, rm) :: t, roomId, status =>
    (k, if k = roomId then { rm with status := status } else rm) ::
      updateRoomStatus t roomId status

/-- Remove a `setTimeout` task (a `clearTimeout`, or the firing that
consumes it). -/
def delTask (tasks : List (Nat × Nat × Task)) (id : Nat) : List (Nat × Nat × Task) :=
  tasks.filter (fun t => t.1 != id)

/-- `startNewRound`'s `clearTimeout(this.roomTimers.get(roomId))`: kills the
pending callback but leaves the (now stale) handle in the map. -/
def clearRoomTimer (w : World) (roomId : String) : World :=
  match alookup w.roomTimers roomId with
  | some tid => { w with tasks := delTask w.tasks tid }
  | none => w

/-- `endGame`'s `clearTimeout` + `this.roomTimers.delete(roomId)`. -/
def stopRoomTimer (w : World) (roomId : String) : World :=
  match alookup w.roomTimers roomId with
  | some tid =>
    { w with tasks := delTask w.tasks tid, roomTimers := adel w.roomTimers roomId }
  | none => w

/-- The guesser switch in `startNewRound`: when the room has a guest, the
guesser becomes the guest if it currently is the creator and the creator
otherwise; without a guest it is left alone. -/
def nextGuesser (room : Room) (cur : Option String) : Option String :=
  match room.guestId with
  | some gId => if cur = some room.creatorId then some gId else some room.creatorId
  | none => cur

/-- The session mutations `startNewRound` performs: set the card and the
round start time, switch the guesser. The round counter is NOT touched. -/
def roundSession (gs : GameState) (room : Room) (card : Card) (now : Nat) : GameState :=
  { gs with currentCard := some card, roundStartTime := some now,
            currentGuesser := nextGuesser room gs.currentGuesser }

/-- `prisma.gameCard.create`, performed only when a `gameId` was passed. -/
def appendGameCard (l : List GameCardRow) (gid : Option String) (card : Card)
    (round : Nat) : List GameCardRow :=
  match gid with
  | some g =>
    l ++ [{ gameId := g, cardId := card.id, round := round,
            isGuessed := false, guessedBy := none }]
  | none => l

/-- `prisma.gameCard.updateMany({where: {gameId, round}, data: {isGuessed,
guessedBy}})`; the source passes `gameState.roomId` as the `gameId`
filter. -/
def markGuessed (l : List GameCardRow) (gameId : String) (round : Nat)
    (u : String) : List GameCardRow :=
  l.map (fun gc =>
    if gc.gameId = gameId ∧ gc.round = round then
      { gc with isGuessed := true, guessedBy := some u }
    else gc)

/-- The `game`/`gameResult` persistence block of `endGame`: mark the latest
`game` row for the room finished and insert one ranked `gameResult` row per
player; without a `game` row nothing is written. -/
def persistResults (w : World) (roomId : String) (gs : GameState) : World :=
  match findLastGame w.games roomId with
  | some game =>
    let games' := w.games.map
      (fun g => if g.id = game.id then { g with status := "FINISHED" } else g)
    let sorted := sortScoresDesc gs.scores
    let results := sorted.enum.map (fun ip =>
      { gameId := game.id
        userId := ip.2.1
        score := ip.2.2
        position := ip.1 + 1
        correctGuesses := ip.2.2 / 10
        totalRounds := gs.maxRounds : GameResultRow })
    { w with games := games', gameResults := w.gameResults ++ results }
  | none => w

/-! ## The gateway handlers (from `GameGateway`) -/

/-- `GameGateway.endGame(roomId)`. Clears the stored round timer, marks the
latest `game` row finished, writes one `gameResult` row per player ranked by
descending score, marks the room finished, broadcasts `gameEnded`, and
deletes the in-memory session. A call with no session in the map returns
immediately (no error of any kind is raised). -/
def endGame (w : World) (roomId : String) : World × List Emit :=
  match alookup w.gameStates roomId with
  | none => (w, [])
  | some gs =>
    let w1 := stopRoomTimer w roomId
    let w2 := persistResults w1 roomId gs
    let w3 : World := { w2 with rooms := updateRoomStatus w2.rooms roomId "FINISHED" }
    ({ w3 with gameStates := adel w3.gameStates roomId },
     [Emit.toRoom roomId (GEvent.gameEnded gs.scores (jsWinner gs.scores))])

/-- `GameGateway.startNewRound(roomId, gameId?)`. `cards` is the oracle
result of `cardsService.getRandomCards` and `now` the current wall-clock
time. Clears the stored round timer, picks the first card, flips the
guesser, persists a `gameCard` row when a `gameId` was passed, broadcasts
`newRound` (full card, name included, to the whole room), and arms a fresh
round timer for `timePerRound` seconds. -/
def startNewRound (w : World) (roomId : String) (gameId : Option String)
    (cards : List Card) (now : Nat) : World × List Emit :=
  match alookup w.gameStates roomId with
  | none => (w, [])
  | some gs =>
    let w1 := clearRoomTimer w roomId
    match alookup w1.rooms roomId with
    | none => (w1, [])
    | some room =>
      match cards with
      | [] => (w1, [Emit.toRoom roomId (GEvent.errorMsg "No cards available")])
      | card :: _ =>
        let gs2 := roundSession gs room card now
        let w2 : World := { w1 with gameStates := aset w1.gameStates roomId gs2 }
        let w3 : World :=
          { w2 with gameCards := appendGameCard w2.gameCards gameId card gs2.currentRound }
        let w4 : World :=
          { w3 with
              tasks := w3.tasks ++
                [(w3.nextId, gs2.timePerRound * 1000, Task.roundTimeout roomId)],
              roomTimers := aset w3.roomTimers roomId w3.nextId,
              nextId := w3.nextId + 1 }
        (w4, [Emit.toRoom roomId (GEvent.newRound gs2.currentRound card.id
          card.name card.imageUrl card.difficulty card.category
          gs2.currentGuesser gs2.timePerRound)])

/-- `GameGateway.handleRoundTimeout(roomId)` (the round timer's callback).
Broadcasts `roundTimeout` with the current round and the card's name,
increments the round counter, then either finalizes (incremented round
exceeds `maxRounds`) or schedules `startNewRound` after 3000 ms. -/
def handleRoundTimeout (w : World) (roomId : String) : World × List Emit :=
  match alookup w.gameStates roomId with
  | none => (w, [])
  | some gs =>
    let e := Emit.toRoom roomId
      (GEvent.roundTimeout gs.currentRound (gs.currentCard.map Card.name))
    let gs1 := { gs with currentRound := gs.currentRound + 1 }
    let w1 : World := { w with gameStates := aset w.gameStates roomId gs1 }
    if gs1.currentRound > gs1.maxRounds then
      let r := endGame w1 roomId
      (r.1, e :: r.2)
    else
      ({ w1 with tasks := w1.tasks ++ [(w1.nextId, 3000, Task.delayedStart roomId)],
                 nextId := w1.nextId + 1 }, [e])

/-- `GameGateway.handleMakeGuess(client, {roomId, guess})`. Validation
errors go to the offending client only. A correct (case-insensitive) guess
bumps the guesser's score by 10, marks the round's `gameCard` rows guessed
(note the source filters them by `gameId: gameState.roomId`), broadcasts
`correctGuess`, and either finalizes (round ≥ maxRounds) or schedules
`startNewRound` after 3000 ms — without touching the armed round timer. An
incorrect guess only broadcasts `incorrectGuess`. -/
def handleMakeGuess (w : World) (userId username roomId guess : String) :
    World × List Emit :=
  match alookup w.gameStates roomId with
  | none => (w, [Emit.toClient userId (GEvent.errorMsg "No active game")])
  | some gs =>
    if gs.isActive = false then
      (w, [Emit.toClient userId (GEvent.errorMsg "No active game")])
    else if gs.currentGuesser ≠ some userId then
      (w, [Emit.toClient userId (GEvent.errorMsg "Not your turn to guess")])
    else
      match gs.currentCard with
      | none => (w, [Emit.toClient userId (GEvent.errorMsg "No card to guess")])
      | some card =>
        if jsToLower card.name = jsToLower guess then
          let gs1 := { gs with scores := bump10 gs.scores userId }
          let w1 : World := { w with
            gameStates := aset w.gameStates roomId gs1,
            gameCards := markGuessed w.gameCards gs1.roomId gs1.currentRound userId }
          let e := Emit.toRoom roomId (GEvent.correctGuess username card gs1.scores)
          if gs1.currentRound ≥ gs1.maxRounds then
            let r := endGame w1 roomId
            (r.1, e :: r.2)
          else
            ({ w1 with tasks := w1.tasks ++ [(w1.nextId, 3000, Task.delayedStart roomId)],
                       nextId := w1.nextId + 1 }, [e])
        else
          (w, [Emit.toRoom roomId (GEvent.incorrectGuess username guess)])

/-- `GameGateway.handleStartGame(client, {roomId})`. `gameId` is the id the
database assigns to the created `game` row, `cards`/`now` are the oracles
for the inner `startNewRound` call. Creates the `game` row with
`settings.maxRounds || 5` and `settings.timePerRound || 60`, installs a
fresh session (round 1, both scores 0, creator as guesser) over whatever
was in the map, marks the room `PLAYING`, starts the first round, and
broadcasts `gameStarted` with the session as mutated by `startNewRound`. -/
def handleStartGame (w : World) (userId roomId gameId : String)
    (cards : List Card) (now : Nat) : World × List Emit :=
  match alookup w.rooms roomId with
  | none =>
    (w, [Emit.toClient userId (GEvent.errorMsg "Only room creator can start the game")])
  | some room =>
    if room.creatorId ≠ userId then
      (w, [Emit.toClient userId (GEvent.errorMsg "Only room creator can start the game")])
    else
      match room.guestId with
      | none =>
        (w, [Emit.toClient userId (GEvent.errorMsg "Need 2 players to start the game")])
      | some guestId =>
        let mr := jsOrNat room.settingsMaxRounds 5
        let tpr := jsOrNat room.settingsTimePerRound 60
        let w1 : World := { w with games := w.games ++
          [{ id := gameId, roomId := roomId, maxRounds := mr,
             timePerRound := tpr, status := "IN_PROGRESS" }] }
        let gs : GameState :=
          { roomId := roomId, currentRound := 1, maxRounds := mr,
            timePerRound := tpr, currentCard := none, roundStartTime := none,
            scores := [(room.creatorId, 0), (guestId, 0)],
            isActive := true, currentGuesser := some room.creatorId }
        let w2 : World := { w1 with gameStates := aset w1.gameStates roomId gs }
        let w3 : World := { w2 with rooms := updateRoomStatus w2.rooms roomId "PLAYING" }
        let r := startNewRound w3 roomId (some gameId) cards now
        let started := (alookup r.1.gameStates roomId).getD gs
        (r.1, r.2 ++ [Emit.toRoom roomId (GEvent.gameStarted gameId started)])

/-- Fire a pending `setTimeout` callback: the firing consumes the task and
runs its closure (`handleRoundTimeout`, or the delayed `startNewRound`
which the source schedules without a `gameId`). -/
def runTask (w : World) (id : Nat) (cards : List Card) (now : Nat) :
    World × List Emit :=
  match w.tasks.find? (fun t => t.1 == id) with
  | some (_, _, Task.roundTimeout roomId) =>
    handleRoundTimeout { w with tasks := delTask w.tasks id } roomId
  | some (_, _, Task.delayedStart roomId) =>
    startNewRound { w with tasks := delTask w.tasks id } roomId none cards now
  | none => (w, [])

/-! ## `RoomsService.startGame` (REST path, from `rooms.service.ts`) -/

inductive HttpErr where
  | notFound (msg : String)
  | forbidden (msg : String)
  | badRequest (msg : String)
  | conflict (msg : String)
deriving DecidableEq, Repr

/-- `RoomsService.startGame(roomId, userId)`: looks the room up, requires
the caller to be the creator, a guest to be present, and the room to still
be `WAITING`; then marks the room `PLAYING`. -/
def roomsStartGame (rooms : List (String × Room)) (roomId userId : String) :
    Except HttpErr (List (String × Room) × Room) :=
  match alookup rooms roomId with
  | none => .error (.notFound "Room not found")
  | some room =>
    if room.creatorId ≠ userId then
      .error (.forbidden "Only the room creator can start the game")
    else if room.guestId = none then
      .error (.badRequest "Cannot start game without a second player")
    else if room.status ≠ "WAITING" then
      .error (.badRequest "Game has already started or finished")
    else
      let room' := { room with status := "PLAYING" }
      .ok (aset rooms roomId room', room')

/-! ## Transition system -/

/-- One externally triggerable transition of the engine: a `startGame`
command, a `makeGuess` command, or the firing of a live timer. -/
inductive Step : World → World → Prop where
  | start (w : World) (userId roomId gameId : String) (cards : List Card) (now : Nat) :
      Step w (handleStartGame w userId roomId gameId cards now).1
  | guess (w : World) (userId username roomId g : String) :
      Step w (handleMakeGuess w userId username roomId g).1
  | task (w : World) (id : Nat) (cards : List Card) (now : Nat) :
      Step w (runTask w id cards now).1

/-- The gateway's initial state: empty session/timer maps, no persisted
game rows; the `rooms` table and socket-room membership are arbitrary. -/
def initWorld (rooms : List (String × Room)) (members : List (String × List String)) :
    World :=
  { gameStates := [], roomTimers := [], tasks := [], nextId := 0,
    rooms := rooms, roomMembers := members,
    games := [], gameCards := [], gameResults := [] }

def Reachable (w : World) : Prop :=
  ∃ rooms members, Relation.ReflTransGen Step (initWorld rooms members) w

/-- Which user a recorded emission is delivered to: a `client.emit` reaches
only its target; a `server.to(roomId).emit` reaches every member of the
socket room, the current guesser included. -/
def deliveredTo (w : World) (e : Emit) (u : String) : Bool :=
  match e with
  | .toClient v _ => v == u
  | .toRoom r _ => ((alookup w.roomMembers r).getD []).contains u

/-- Whether an emission is an `error` notification. -/
def isErrorEmit : Emit → Bool
  | .toClient _ (.errorMsg _) => true
  | .toRoom _ (.errorMsg _) => true
  | _ => false

/-! ## Concrete fixture: room `"r"` with creator `"a"`, guest `"b"`,
`maxRounds = 2`, `timePerRound = 30` -/

def cardAda : Card :=
  { id := "c1", name := "Ada", imageUrl := "u", difficulty := 1,
    category := "hist", hints := ["h"] }

def cardBo : Card :=
  { id := "c2", name := "Bo", imageUrl := "u2", difficulty := 2,
    category := "hist", hints := ["h2"] }

def roomAB : Room :=
  { id := "r", creatorId := "a", guestId := some "b", status := "WAITING",
    settingsMaxRounds := some 2, settingsTimePerRound := some 30 }

def gameW0 : World := initWorld [("r", roomAB)] [("r", ["a", "b"])]

/-- The creator starts the game; the card service returns `cardAda`. -/
def startedW : World × List Emit := handleStartGame gameW0 "a" "r" "g1" [cardAda] 100

/-- The session installed by `startedW` (round 1, card `Ada`,
`currentGuesser` already flipped to the guest `"b"`). -/
def sessionAfterStart : GameState :=
  { roomId := "r", currentRound := 1, maxRounds := 2, timePerRound := 30,
    currentCard := some cardAda, roundStartTime := some 100,
    scores := [("a", 0), ("b", 0)], isActive := true,
    currentGuesser := some "b" }

/-- The guest `"b"` (the actual round-1 guesser) submits the matching guess
`"ada"`. -/
def guessedW : World × List Emit := handleMakeGuess startedW.1 "b" "bee" "r" "ada"

/-- The session after the correct guess: score bumped, round still 1. -/
def sessionAfterGuess : GameState :=
  { sessionAfterStart with scores := [("a", 0), ("b", 10)] }

/-! ## Association-list lemmas -/

theorem alookup_aset_self {α : Type} (l : List (String × α)) (k : String) (v : α) :
    alookup (aset l k v) k = some v := by
  induction l with
  | nil => simp [aset, alookup]
  | cons p t ih =>
    obtain ⟨a, b⟩ := p
    by_cases hk : a = k
    · simp [aset, hk, alookup]
    · simp [aset, hk, alookup, ih]

theorem alookup_aset_ne {α : Type} (l : List (String × α)) (k k' : String) (v : α)
    (h : k' ≠ k) : alookup (aset l k v) k' = alookup l k' := by
  induction l with
  | nil => simp [aset, alookup, Ne.symm h]
  | cons p t ih =>
    obtain ⟨a, b⟩ := p
    by_cases hk : a = k
    · subst hk
      simp [aset, alookup, Ne.symm h]
    · simp [aset, hk, alookup, ih]

theorem alookup_adel_self {α : Type} (l : List (String × α)) (k : String) :
    alookup (adel l k) k = none := by
  induction l with
  | nil => simp [adel, alookup]
  | cons p t ih =>
    obtain ⟨a, b⟩ := p
    by_cases hk : a = k
    · simp [adel, hk, ih]
    · simp [adel, hk, alookup, ih]

theorem alookup_adel_ne {α : Type} (l : List (String × α)) (k k' : String)
    (h : k' ≠ k) : alookup (adel l k) k' = alookup l k' := by
  induction l with
  | nil => simp [adel]
  | cons p t ih =>
    obtain ⟨a, b⟩ := p
    by_cases hk : a = k
    · subst hk
      simp [adel, alookup, Ne.symm h, ih]
    · simp [adel, hk, alookup, ih]

theorem alookup_updateRoomStatus (rooms : List (String × Room)) (roomId status r : String) :
    alookup (updateRoomStatus rooms roomId status) r =
      if r = roomId then (alookup rooms r).map (fun rm => { rm with status := status })
      else alookup rooms r := by
  induction rooms with
  | nil => simp [updateRoomStatus, alookup]
  | cons p t ih =>
    obtain ⟨a, b⟩ := p
    by_cases ha : a = roomId
    · subst ha
      by_cases har : a = r
      · subst har
        simp [updateRoomStatus, alookup]
      · simp [updateRoomStatus, alookup, har, Ne.symm har, ih]
    · by_cases har : a = r
      · subst har
        simp [updateRoomStatus, alookup, ha, ih]
      · simp [updateRoomStatus, alookup, ha, har, ih]

theorem alookup_bump10 (sc : List (String × Nat)) (u p : String) :
    alookup (bump10 sc u) p =
      (alookup sc p).map (fun s => if p = u then s + 10 else s) := by
  induction sc with
  | nil => simp [bump10, alookup]
  | cons q t ih =>
    obtain ⟨a, b⟩ := q
    by_cases hau : a = u
    · subst hau
      by_cases hap : a = p
      · subst hap
        simp [bump10, alookup]
      · simp [bump10, alookup, hap, ih]
    · by_cases hap : a = p
      · subst hap
        simp [bump10, alookup, hau]
      · simp [bump10, alookup, hau, hap, ih]

/-! ## Projection lemmas for the factored stages -/

theorem clearRoomTimer_gameStates (w : World) (roomId : String) :
    (clearRoomTimer w roomId).gameStates = w.gameStates := by
  unfold clearRoomTimer; split <;> rfl

theorem clearRoomTimer_rooms (w : World) (roomId : String) :
    (clearRoomTimer w roomId).rooms = w.rooms := by
  unfold clearRoomTimer; split <;> rfl

theorem stopRoomTimer_gameStates (w : World) (roomId : String) :
    (stopRoomTimer w roomId).gameStates = w.gameStates := by
  unfold stopRoomTimer; split <;> rfl

theorem stopRoomTimer_games (w : World) (roomId : String) :
    (stopRoomTimer w roomId).games = w.games := by
  unfold stopRoomTimer; split <;> rfl

theorem stopRoomTimer_rooms (w : World) (roomId : String) :
    (stopRoomTimer w roomId).rooms = w.rooms := by
  unfold stopRoomTimer; split <;> rfl

theorem persistResults_gameStates (w : World) (roomId : String) (gs : GameState) :
    (persistResults w roomId gs).gameStates = w.gameStates := by
  unfold persistResults; split <;> rfl

theorem persistResults_rooms (w : World) (roomId : String) (gs : GameState) :
    (persistResults w roomId gs).rooms = w.rooms := by
  unfold persistResults; split <;> rfl

theorem roundSession_scores (gs : GameState) (room : Room) (card : Card) (now : Nat) :
    (roundSession gs room card now).scores = gs.scores := rfl

/-! ## Handler-effect lemmas -/

/-- `endGame` always leaves the target room without a session (either it was
already absent, or it is evicted at the end of the call). -/
theorem endGame_evicts (w : World) (roomId : String) :
    alookup (endGame w roomId).1.gameStates roomId = none := by
  unfold endGame
  cases hgs : alookup w.gameStates roomId with
  | none => simpa using hgs
  | some gs =>
    simp [persistResults_gameStates, stopRoomTimer_gameStates, alookup_adel_self]

/-- `endGame` only ever removes the target room's session; every session it
returns was already in the map. -/
theorem endGame_gameStates (w : World) (roomId r : String) (gs' : GameState)
    (h : alookup (endGame w roomId).1.gameStates r = some gs') :
    alookup w.gameStates r = some gs' := by
  by_cases hr : r = roomId
  · subst hr
    rw [endGame_evicts] at h
    exact absurd h (by simp)
  · unfold endGame at h
    cases hgs : alookup w.gameStates roomId with
    | none => rw [hgs] at h; exact h
    | some gs =>
      rw [hgs] at h
      simpa [persistResults_gameStates, stopRoomTimer_gameStates,
        alookup_adel_ne _ _ _ hr] using h

/-- `startNewRound` never creates or deletes a session and never touches the
scores: any session after the call was present before with the same
scores. -/
theorem startNewRound_scores (w : World) (roomId : String) (gid : Option String)
    (cards : List Card) (now : Nat) (r : String) (gs' : GameState)
    (h : alookup (startNewRound w roomId gid cards now).1.gameStates r = some gs') :
    ∃ gs, alookup w.gameStates r = some gs ∧ gs'.scores = gs.scores := by
  unfold startNewRound at h
  cases hgs : alookup w.gameStates roomId with
  | none => rw [hgs] at h; exact ⟨gs', h, rfl⟩
  | some gs =>
    rw [hgs] at h
    simp only [clearRoomTimer_rooms] at h
    cases hrm : alookup w.rooms roomId with
    | none =>
      rw [hrm] at h
      simp only [clearRoomTimer_gameStates] at h
      exact ⟨gs', h, rfl⟩
    | some room =>
      rw [hrm] at h
      cases cards with
      | nil =>
        simp only [clearRoomTimer_gameStates] at h
        exact ⟨gs', h, rfl⟩
      | cons card rest =>
        simp only [clearRoomTimer_gameStates] at h
        by_cases hr : r = roomId
        · subst hr
          rw [alookup_aset_self] at h
          cases h
          exact ⟨gs, hgs, rfl⟩
        · rw [alookup_aset_ne _ _ _ _ hr] at h
          exact ⟨gs', h, rfl⟩

theorem alookup_aset_cases {α : Type} (l : List (String × α)) (k r : String) (v x : α)
    (h : alookup (aset l k v) r = some x) :
    (r = k ∧ x = v) ∨ (r ≠ k ∧ alookup l r = some x) := by
  by_cases hr : r = k
  · subst hr
    rw [alookup_aset_self] at h
    exact Or.inl ⟨rfl, (Option.some.inj h).symm⟩
  · rw [alookup_aset_ne _ _ _ _ hr] at h
    exact Or.inr ⟨hr, h⟩

/-- `handleRoundTimeout` never touches the scores of any session. -/
theorem handleRoundTimeout_scores (w : World) (roomId : String) (r : String)
    (gs' : GameState)
    (h : alookup (handleRoundTimeout w roomId).1.gameStates r = some gs') :
    ∃ gs, alookup w.gameStates r = some gs ∧ gs'.scores = gs.scores := by
  unfold handleRoundTimeout at h
  cases hgs : alookup w.gameStates roomId with
  | none => rw [hgs] at h; exact ⟨gs', h, rfl⟩
  | some gs =>
    rw [hgs] at h
    simp only [] at h
    split at h
    · have h2 := endGame_gameStates _ _ _ _ h
      rcases alookup_aset_cases _ _ _ _ _ h2 with ⟨hr, hx⟩ | ⟨hr, hold⟩
      · subst hr
        subst hx
        exact ⟨gs, hgs, rfl⟩
      · exact ⟨gs', hold, rfl⟩
    · rcases alookup_aset_cases _ _ _ _ _ h with ⟨hr, hx⟩ | ⟨hr, hold⟩
      · subst hr
        subst hx
        exact ⟨gs, hgs, rfl⟩
      · exact ⟨gs', hold, rfl⟩

/-- `handleMakeGuess` either leaves a session's scores alone or bumps the
guessing user's score by 10. -/
theorem handleMakeGuess_scores (w : World) (userId username roomId guess : String)
    (r : String) (gs' : GameState)
    (h : alookup (handleMakeGuess w userId username roomId guess).1.gameStates r = some gs') :
    ∃ gs, alookup w.gameStates r = some gs ∧
      (gs'.scores = gs.scores ∨ gs'.scores = bump10 gs.scores userId) := by
  unfold handleMakeGuess at h
  cases hgs : alookup w.gameStates roomId with
  | none => rw [hgs] at h; exact ⟨gs', h, Or.inl rfl⟩
  | some gs =>
    rw [hgs] at h
    simp only [] at h
    split at h
    · exact ⟨gs', h, Or.inl rfl⟩
    · split at h
      · exact ⟨gs', h, Or.inl rfl⟩
      · split at h
        · exact ⟨gs', h, Or.inl rfl⟩
        · rename_i card
          split at h
          · split at h
            · have h2 := endGame_gameStates _ _ _ _ h
              rcases alookup_aset_cases _ _ _ _ _ h2 with ⟨hr, hx⟩ | ⟨hr, hold⟩
              · subst hr
                subst hx
                exact ⟨gs, hgs, Or.inr rfl⟩
              · exact ⟨gs', hold, Or.inl rfl⟩
            · rcases alookup_aset_cases _ _ _ _ _ h with ⟨hr, hx⟩ | ⟨hr, hold⟩
              · subst hr
                subst hx
                exact ⟨gs, hgs, Or.inr rfl⟩
              · exact ⟨gs', hold, Or.inl rfl⟩
          · exact ⟨gs', h, Or.inl rfl⟩

/-- `handleStartGame` either leaves a session's scores alone or installs a
fresh session whose two scores are both 0. -/
theorem handleStartGame_scores (w : World) (userId roomId gameId : String)
    (cards : List Card) (now : Nat) (r : String) (gs' : GameState)
    (h : alookup (handleStartGame w userId roomId gameId cards now).1.gameStates r = some gs') :
    (∃ gs, alookup w.gameStates r = some gs ∧ gs'.scores = gs.scores)
    ∨ (∃ cId gId, gs'.scores = [(cId, 0), (gId, 0)]) := by
  unfold handleStartGame at h
  cases hrm : alookup w.rooms roomId with
  | none => rw [hrm] at h; exact Or.inl ⟨gs', h, rfl⟩
  | some room =>
    rw [hrm] at h
    simp only [] at h
    split at h
    · exact Or.inl ⟨gs', h, rfl⟩
    · split at h
      · exact Or.inl ⟨gs', h, rfl⟩
      · rename_i guestId hguest
        obtain ⟨gsMid, hMid, hsc⟩ := startNewRound_scores _ _ _ _ _ _ _ h
        simp only [] at hMid
        rcases alookup_aset_cases _ _ _ _ _ hMid with ⟨hr, hx⟩ | ⟨hr, hold⟩
        · subst hx
          exact Or.inr ⟨room.creatorId, guestId, by rw [hsc]⟩
        · exact Or.inl ⟨gsMid, hold, hsc⟩

/-- Firing any pending timer never bumps scores except through the guess
path (it only runs `handleRoundTimeout` or `startNewRound`). -/
theorem runTask_scores (w : World) (id : Nat) (cards : List Card) (now : Nat)
    (r : String) (gs' : GameState)
    (h : alookup (runTask w id cards now).1.gameStates r = some gs') :
    ∃ gs, alookup w.gameStates r = some gs ∧ gs'.scores = gs.scores := by
  unfold runTask at h
  split at h
  · obtain ⟨gs, hgs, he⟩ := handleRoundTimeout_scores _ _ _ _ h
    exact ⟨gs, hgs, he⟩
  · obtain ⟨gs, hgs, he⟩ := startNewRound_scores _ _ _ _ _ _ _ h
    exact ⟨gs, hgs, he⟩
  · exact ⟨gs', h, rfl⟩

/-- Any single engine transition either preserves a session's scores, bumps
one player by 10, or installs a fresh all-zero score map. -/
theorem step_scores (w w' : World) (hs : Step w w') (r : String) (gs' : GameState)
    (h : alookup w'.gameStates r = some gs') :
    (∃ gs, alookup w.gameStates r = some gs ∧
        (gs'.scores = gs.scores ∨ ∃ u, gs'.scores = bump10 gs.scores u))
    ∨ (∃ cId gId, gs'.scores = [(cId, 0), (gId, 0)]) := by
  cases hs with
  | start userId roomId gameId cards now =>
    rcases handleStartGame_scores w userId roomId gameId cards now r gs' h with
      ⟨gs, hgs, heq⟩ | hz
    · exact Or.inl ⟨gs, hgs, Or.inl heq⟩
    · exact Or.inr hz
  | guess userId username roomId g =>
    rcases handleMakeGuess_scores w userId username roomId g r gs' h with
      ⟨gs, hgs, heq | hb⟩
    · exact Or.inl ⟨gs, hgs, Or.inl heq⟩
    · exact Or.inl ⟨gs, hgs, Or.inr ⟨userId, hb⟩⟩
  | task id cards now =>
    obtain ⟨gs, hgs, heq⟩ := runTask_scores w id cards now r gs' h
    exact Or.inl ⟨gs, hgs, Or.inl heq⟩

theorem alookup_pair_zero (cId gId p : String) (s : Nat)
    (h : alookup [(cId, 0), (gId, 0)] p = some s) : s = 0 := by
  by_cases h1 : cId = p
  · simp [alookup, h1] at h
    omega
  · by_cases h2 : gId = p
    · simp [alookup, h1, h2] at h
      omega
    · simp [alookup, h1, h2] at h

/-- Divisibility of every score by 10 is preserved by every transition. -/
theorem scoresDiv_step (w w' : World) (hs : Step w w')
    (hd : ∀ r gs, alookup w.gameStates r = some gs →
      ∀ p s, alookup gs.scores p = some s → 10 ∣ s) :
    ∀ r gs', alookup w'.gameStates r = some gs' →
      ∀ p s, alookup gs'.scores p = some s → 10 ∣ s := by
  intro r gs' h p s hsc
  rcases step_scores w w' hs r gs' h with ⟨gs, hgs, heq | ⟨u, hb⟩⟩ | ⟨cId, gId, hz⟩
  · rw [heq] at hsc
    exact hd r gs hgs p s hsc
  · rw [hb, alookup_bump10] at hsc
    cases ho : alookup gs.scores p with
    | none => rw [ho] at hsc; cases hsc
    | some s0 =>
      rw [ho] at hsc
      simp only [Option.map_some'] at hsc
      have hdvd := hd r gs hgs p s0 ho
      by_cases hpu : p = u
      · rw [if_pos hpu] at hsc
        cases hsc
        exact Nat.dvd_add hdvd (by norm_num)
      · rw [if_neg hpu] at hsc
        cases hsc
        exact hdvd
  · rw [hz] at hsc
    rw [alookup_pair_zero _ _ _ _ hsc]
    exact Dvd.intro 0 rfl

/-- Divisibility of every score by 10 holds in every reachable world. -/
theorem scoresDiv_reachable (w : World) (hw : Reachable w) :
    ∀ r gs, alookup w.gameStates r = some gs →
      ∀ p s, alookup gs.scores p = some s → 10 ∣ s := by
  obtain ⟨rooms, members, hsteps⟩ := hw
  induction hsteps with
  | refl => intro r gs h; simp [initWorld, alookup] at h
  | tail hab hbc ih => exact scoresDiv_step _ _ hbc ih

/-- `endGame` on a missing session is a silent no-op: no state change and no
emission of any kind. -/
theorem endGame_no_session (w : World) (roomId : String)
    (h : alookup w.gameStates roomId = none) : endGame w roomId = (w, []) := by
  simp [endGame, h]

/-- The only emission of `endGame` on a live session is the `gameEnded`
broadcast carrying the final scores and the reduce-computed winner. -/
theorem endGame_emits (w : World) (roomId : String) (gs : GameState)
    (h : alookup w.gameStates roomId = some gs) :
    (endGame w roomId).2 =
      [Emit.toRoom roomId (GEvent.gameEnded gs.scores (jsWinner gs.scores))] := by
  simp [endGame, h]

/-- On the success path (live session, room found, a card available),
`startNewRound` stores exactly the `roundSession` update of the session. -/
theorem startNewRound_success_session (w : World) (roomId : String)
    (gid : Option String) (card : Card) (rest : List Card) (now : Nat)
    (gs : GameState) (room : Room)
    (hgs : alookup w.gameStates roomId = some gs)
    (hrm : alookup w.rooms roomId = some room) :
    alookup (startNewRound w roomId gid (card :: rest) now).1.gameStates roomId
      = some (roundSession gs room card now) := by
  unfold startNewRound
  rw [hgs]
  simp only [clearRoomTimer_rooms, hrm]
  simp [clearRoomTimer_gameStates, alookup_aset_self]

/-- The two-player `reduce` winner: the first key on a strictly greater
score, the second key otherwise (ties go to the later key). -/
theorem jsWinner_pair (c g : String) (x y : Nat) (hne : c ≠ g) :
    jsWinner [(c, x), (g, y)] = if x > y then c else g := by
  simp [jsWinner, alookup, hne]

/-! ## Claim theorems -/

/-- C1: the correct-guess transition does NOT cancel the round timer. In the
concrete session (creator `a`, guest `b`, `maxRounds = 2`), the guest's
correct guess in round 1 broadcasts `correctGuess`, yet the round-1 timer
(task 0, armed for 30000 ms) is still pending afterwards, and firing it
emits a `roundTimeout` for that very round 1. This refutes the claim that
the timer is cancelled on a match and can never fire for that round. -/
theorem c1_correct_guess_timer_not_cancelled :
    Emit.toRoom "r" (GEvent.correctGuess "bee" cardAda [("a", 0), ("b", 10)]) ∈ guessedW.2
    ∧ (0, 30000, Task.roundTimeout "r") ∈ guessedW.1.tasks
    ∧ (runTask guessedW.1 0 [] 0).2
        = [Emit.toRoom "r" (GEvent.roundTimeout 1 (some "Ada"))] := by
  decide

/-- C2: Scenario A diverges from the code. After `startGame` (creator `a`,
guest `b`, `maxRounds = 2`), round 1's `currentGuesser` is the guest `b`
(not the creator): `startNewRound` flips the guesser on every round start,
including the first, contradicting the source comment "Creator starts as
guesser". The creator's guess is rejected with "Not your turn to guess".
After the guest's correct guess, the scores are `{a: 0, b: 10}`, the round
counter is still 1, and the scheduled next round is numbered 1 (not 2) with
guesser `a`. -/
theorem c2_scenario_a_divergence :
    (alookup startedW.1.gameStates "r").map GameState.currentGuesser = some (some "b")
    ∧ handleMakeGuess startedW.1 "a" "ay" "r" "ada"
        = (startedW.1, [Emit.toClient "a" (GEvent.errorMsg "Not your turn to guess")])
    ∧ (alookup guessedW.1.gameStates "r").map GameState.scores
        = some [("a", 0), ("b", 10)]
    ∧ (alookup guessedW.1.gameStates "r").map GameState.currentRound = some 1
    ∧ (runTask guessedW.1 1 [cardBo] 200).2
        = [Emit.toRoom "r" (GEvent.newRound 1 cardBo.id cardBo.name cardBo.imageUrl
            cardBo.difficulty cardBo.category (some "a") 30)] := by
  decide

/-- C5 counterexample: a second finalization of the same session does not
raise `AlreadyFinalized` (or any error at all): the first call emits the
`gameEnded` broadcast, and the second call returns the world unchanged with
an empty emission list. -/
theorem c5_second_finalize_silent :
    (endGame guessedW.1 "r").2
        = [Emit.toRoom "r" (GEvent.gameEnded [("a", 0), ("b", 10)] "b")]
    ∧ endGame (endGame guessedW.1 "r").1 "r" = ((endGame guessedW.1 "r").1, []) := by
  decide

/-- C5 (amended): the first finalization evicts the session, and a second
finalization call for the same room is a silent no-op — no error is raised
and scores, persisted results, and room status are all left unchanged
(the returned world is identical). -/
theorem c5_finalize_second_noop (w : World) (roomId : String) :
    alookup (endGame w roomId).1.gameStates roomId = none
    ∧ endGame (endGame w roomId).1 roomId = ((endGame w roomId).1, []) :=
  ⟨endGame_evicts w roomId, endGame_no_session _ _ (endGame_evicts w roomId)⟩

/-- C6: a guess by a player who is not the `currentGuesser` of an active
session produces exactly one `error` notification to that player alone and
returns the world entirely unchanged — scores, round, guesser, card, and
all timers included. -/
theorem c6_not_your_turn_frame (w : World) (userId username roomId guess : String)
    (gs : GameState) (h : alookup w.gameStates roomId = some gs)
    (ha : gs.isActive = true) (ht : gs.currentGuesser ≠ some userId) :
    handleMakeGuess w userId username roomId guess
      = (w, [Emit.toClient userId (GEvent.errorMsg "Not your turn to guess")]) := by
  unfold handleMakeGuess
  rw [h]
  simp [ha, ht]

/-- C6 witness: in the started fixture session, the creator `a` is not the
guesser, and their guess leaves the world untouched. -/
theorem c6_not_your_turn_frame_witness :
    handleMakeGuess startedW.1 "a" "ay" "r" "zz"
      = (startedW.1, [Emit.toClient "a" (GEvent.errorMsg "Not your turn to guess")]) :=
  c6_not_your_turn_frame startedW.1 "a" "ay" "r" "zz" sessionAfterStart
    (by decide) (by decide) (by decide)

/-- C7: the round-start notification is a single room-wide broadcast whose
payload contains the card's name, and it is delivered to the current
guesser (a member of the socket room) — the name is not hidden from the
guesser, contradicting the claim (and the source's own comment "Only send
to non-guesser"). -/
theorem c7_new_round_name_reaches_guesser :
    startedW.2.head? = some (Emit.toRoom "r" (GEvent.newRound 1 cardAda.id
        cardAda.name cardAda.imageUrl cardAda.difficulty cardAda.category
        (some "b") 30))
    ∧ (alookup startedW.1.gameStates "r").map GameState.currentGuesser
        = some (some "b")
    ∧ deliveredTo startedW.1 (Emit.toRoom "r" (GEvent.newRound 1 cardAda.id
        cardAda.name cardAda.imageUrl cardAda.difficulty cardAda.category
        (some "b") 30)) "b" = true := by
  decide

/-- C3: the timeout transition first broadcasts `roundTimeout` revealing the
card's name, then increments the round counter; if the incremented round
exceeds `maxRounds` it finalizes the session (session evicted, `gameEnded`
broadcast), otherwise it stores the incremented session and schedules the
next round via a 3000 ms delayed task. -/
theorem c3_timeout_transition (w : World) (roomId : String) (gs : GameState)
    (h : alookup w.gameStates roomId = some gs) :
    (handleRoundTimeout w roomId).2.head? =
      some (Emit.toRoom roomId
        (GEvent.roundTimeout gs.currentRound (gs.currentCard.map Card.name)))
    ∧ (gs.currentRound + 1 > gs.maxRounds →
        alookup (handleRoundTimeout w roomId).1.gameStates roomId = none
        ∧ (handleRoundTimeout w roomId).2 =
            [Emit.toRoom roomId
              (GEvent.roundTimeout gs.currentRound (gs.currentCard.map Card.name)),
             Emit.toRoom roomId (GEvent.gameEnded gs.scores (jsWinner gs.scores))])
    ∧ (¬ gs.currentRound + 1 > gs.maxRounds →
        alookup (handleRoundTimeout w roomId).1.gameStates roomId =
          some { gs with currentRound := gs.currentRound + 1 }
        ∧ (w.nextId, 3000, Task.delayedStart roomId) ∈ (handleRoundTimeout w roomId).1.tasks
        ∧ (handleRoundTimeout w roomId).2 =
            [Emit.toRoom roomId
              (GEvent.roundTimeout gs.currentRound (gs.currentCard.map Card.name))]) := by
  unfold handleRoundTimeout
  rw [h]
  simp only []
  by_cases hb : gs.currentRound + 1 > gs.maxRounds
  · rw [if_pos hb]
    refine ⟨rfl, fun _ => ⟨?_, ?_⟩, fun hc => absurd hb hc⟩
    · exact endGame_evicts _ _
    · rw [endGame_emits _ _ { gs with currentRound := gs.currentRound + 1 }
        (alookup_aset_self _ _ _)]
  · rw [if_neg hb]
    refine ⟨rfl, fun hc => absurd hc hb, fun _ => ⟨?_, ?_, rfl⟩⟩
    · exact alookup_aset_self _ _ _
    · simp

/-- C3 witness: in the guessed fixture session (round 1 of 2), the timeout
transition takes the non-final branch. -/
theorem c3_timeout_transition_witness :
    (handleRoundTimeout guessedW.1 "r").2.head? =
      some (Emit.toRoom "r" (GEvent.roundTimeout sessionAfterGuess.currentRound
        (sessionAfterGuess.currentCard.map Card.name)))
    ∧ (sessionAfterGuess.currentRound + 1 > sessionAfterGuess.maxRounds →
        alookup (handleRoundTimeout guessedW.1 "r").1.gameStates "r" = none
        ∧ (handleRoundTimeout guessedW.1 "r").2 =
            [Emit.toRoom "r" (GEvent.roundTimeout sessionAfterGuess.currentRound
              (sessionAfterGuess.currentCard.map Card.name)),
             Emit.toRoom "r" (GEvent.gameEnded sessionAfterGuess.scores
              (jsWinner sessionAfterGuess.scores))])
    ∧ (¬ sessionAfterGuess.currentRound + 1 > sessionAfterGuess.maxRounds →
        alookup (handleRoundTimeout guessedW.1 "r").1.gameStates "r" =
          some { sessionAfterGuess with
                  currentRound := sessionAfterGuess.currentRound + 1 }
        ∧ (guessedW.1.nextId, 3000, Task.delayedStart "r")
            ∈ (handleRoundTimeout guessedW.1 "r").1.tasks
        ∧ (handleRoundTimeout guessedW.1 "r").2 =
            [Emit.toRoom "r" (GEvent.roundTimeout sessionAfterGuess.currentRound
              (sessionAfterGuess.currentCard.map Card.name))]) :=
  c3_timeout_transition guessedW.1 "r" sessionAfterGuess (by decide)

/-- C8: with an active session, the turn owner guessing and a card in play,
the guess is judged correct exactly when its lowercase form equals the
lowercase canonical card name; on a mismatch the only effect is a room-wide
`incorrectGuess` broadcast — scores, round, guesser, card, and timers are
untouched. -/
theorem c8_guess_resolution (w : World) (userId username roomId guess : String)
    (gs : GameState) (card : Card)
    (h : alookup w.gameStates roomId = some gs) (ha : gs.isActive = true)
    (ht : gs.currentGuesser = some userId) (hc : gs.currentCard = some card) :
    ((Emit.toRoom roomId
        (GEvent.correctGuess username card (bump10 gs.scores userId))
          ∈ (handleMakeGuess w userId username roomId guess).2)
      ↔ jsToLower card.name = jsToLower guess)
    ∧ (jsToLower card.name ≠ jsToLower guess →
        handleMakeGuess w userId username roomId guess
          = (w, [Emit.toRoom roomId (GEvent.incorrectGuess username guess)])) := by
  unfold handleMakeGuess
  rw [h]
  simp only []
  rw [hc]
  simp only [ha, ht, ne_eq, not_true_eq_false, if_false, reduceCtorEq]
  by_cases hcg : jsToLower card.name = jsToLower guess
  · rw [if_pos hcg]
    refine ⟨⟨fun _ => hcg, fun _ => ?_⟩, fun hne => absurd hcg hne⟩
    split <;> exact List.mem_cons_self _ _
  · rw [if_neg hcg]
    refine ⟨⟨fun hmem => ?_, fun hcg2 => absurd hcg2 hcg⟩, fun _ => rfl⟩
    simp at hmem

/-- C8 witness: the fixture guesser `b` submits the non-matching guess
`"xyz"` against the card named `"Ada"`. -/
theorem c8_guess_resolution_witness :
    ((Emit.toRoom "r"
        (GEvent.correctGuess "bee" cardAda (bump10 sessionAfterStart.scores "b"))
          ∈ (handleMakeGuess startedW.1 "b" "bee" "r" "xyz").2)
      ↔ jsToLower cardAda.name = jsToLower "xyz")
    ∧ (jsToLower cardAda.name ≠ jsToLower "xyz" →
        handleMakeGuess startedW.1 "b" "bee" "r" "xyz"
          = (startedW.1, [Emit.toRoom "r" (GEvent.incorrectGuess "bee" "xyz")])) :=
  c8_guess_resolution startedW.1 "b" "bee" "r" "xyz" sessionAfterStart cardAda
    (by decide) (by decide) (by decide) (by decide)

/-- C10: for a finalized two-player session, the `gameEnded` broadcast
carries the winner computed by the `reduce` over the insertion-ordered
score keys: the winner is always one of the two players, holds a maximal
score, and on a tie is the second inserted key (the guest), not the
first. -/
theorem c10_winner_maximal_tie_guest (w : World) (roomId : String)
    (gs : GameState) (c g : String) (x y : Nat)
    (h : alookup w.gameStates roomId = some gs)
    (hs : gs.scores = [(c, x), (g, y)]) (hne : c ≠ g) :
    (endGame w roomId).2 =
      [Emit.toRoom roomId
        (GEvent.gameEnded [(c, x), (g, y)] (jsWinner [(c, x), (g, y)]))]
    ∧ (jsWinner [(c, x), (g, y)] = c ∨ jsWinner [(c, x), (g, y)] = g)
    ∧ (∀ p s, alookup [(c, x), (g, y)] p = some s →
        s ≤ (alookup [(c, x), (g, y)] (jsWinner [(c, x), (g, y)])).getD 0)
    ∧ (x = y → jsWinner [(c, x), (g, y)] = g) := by
  have hw := jsWinner_pair c g x y hne
  refine ⟨?_, ?_, ?_, ?_⟩
  · rw [endGame_emits w roomId gs h, hs]
  · rw [hw]
    by_cases hxy : x > y
    · exact Or.inl (if_pos hxy)
    · exact Or.inr (if_neg hxy)
  · intro p s hp
    rw [hw]
    by_cases hxy : x > y
    · rw [if_pos hxy]
      have hcx : alookup [(c, x), (g, y)] c = some x := by simp [alookup]
      rw [hcx]
      simp only [Option.getD_some]
      by_cases hcp : c = p
      · simp [alookup, hcp] at hp
        omega
      · by_cases hgp : g = p
        · simp [alookup, hcp, hgp] at hp
          omega
        · simp [alookup, hcp, hgp] at hp
    · rw [if_neg hxy]
      have hgy : alookup [(c, x), (g, y)] g = some y := by simp [alookup, hne]
      rw [hgy]
      simp only [Option.getD_some]
      by_cases hcp : c = p
      · simp [alookup, hcp] at hp
        omega
      · by_cases hgp : g = p
        · simp [alookup, hcp, hgp] at hp
          omega
        · simp [alookup, hcp, hgp] at hp
  · intro hxy
    rw [hw, if_neg (by omega)]

/-- C10 witness: finalizing the guessed fixture session (scores
`a ↦ 0`, `b ↦ 10`). -/
theorem c10_winner_maximal_tie_guest_witness :
    (endGame guessedW.1 "r").2 =
      [Emit.toRoom "r"
        (GEvent.gameEnded [("a", 0), ("b", 10)] (jsWinner [("a", 0), ("b", 10)]))]
    ∧ (jsWinner [("a", 0), ("b", 10)] = "a" ∨ jsWinner [("a", 0), ("b", 10)] = "b")
    ∧ (∀ p s, alookup [("a", 0), ("b", 10)] p = some s →
        s ≤ (alookup [("a", 0), ("b", 10)] (jsWinner [("a", 0), ("b", 10)])).getD 0)
    ∧ (0 = 10 → jsWinner [("a", 0), ("b", 10)] = "b") :=
  c10_winner_maximal_tie_guest guessedW.1 "r" sessionAfterGuess "a" "b" 0 10
    (by decide) (by decide) (by decide)

/-- C4 counterexample: room `"r"` already has a live session (with points on
the board), yet a second `startGame` through the gateway does not fail with
any error — it emits no `error` notification and replaces the existing
session (the stored session changes). -/
theorem c4_duplicate_start_not_conflict :
    (handleStartGame guessedW.1 "a" "r" "g2" [cardBo] 200).2.all
        (fun e => !isErrorEmit e) = true
    ∧ alookup (handleStartGame guessedW.1 "a" "r" "g2" [cardBo] 200).1.gameStates "r"
        ≠ alookup guessedW.1.gameStates "r" := by
  decide

/-- C4 (amended): duplicate starts are rejected only on the REST path and
not with Conflict: `RoomsService.startGame` on a room whose status is no
longer `WAITING` fails with BadRequest ("Game has already started or
finished"), while the gateway's `startGame` performs no duplicate-session
check at all — even with a live session present it installs a fresh
round-1 session with both scores 0, replacing the old one. -/
theorem c4_duplicate_start_amended
    (rooms : List (String × Room)) (roomId userId : String) (room : Room)
    (hr : alookup rooms roomId = some room) (hc : room.creatorId = userId)
    (hg : room.guestId ≠ none) (hs : room.status ≠ "WAITING")
    (w : World) (gameId : String) (room2 : Room) (guestId : String)
    (card : Card) (rest : List Card) (now : Nat) (gsOld : GameState)
    (h2 : alookup w.rooms roomId = some room2) (hc2 : room2.creatorId = userId)
    (hg2 : room2.guestId = some guestId)
    (_hold : alookup w.gameStates roomId = some gsOld) :
    roomsStartGame rooms roomId userId
      = .error (.badRequest "Game has already started or finished")
    ∧ ∃ gs', alookup (handleStartGame w userId roomId gameId
          (card :: rest) now).1.gameStates roomId = some gs'
        ∧ gs'.scores = [(room2.creatorId, 0), (guestId, 0)]
        ∧ gs'.currentRound = 1 := by
  constructor
  · unfold roomsStartGame
    rw [hr]
    simp [hc, hg, hs]
  · unfold handleStartGame
    rw [h2]
    simp only []
    rw [if_neg (by simp [hc2])]
    rw [hg2]
    simp only []
    refine ⟨roundSession
        { roomId := roomId, currentRound := 1,
          maxRounds := jsOrNat room2.settingsMaxRounds 5,
          timePerRound := jsOrNat room2.settingsTimePerRound 60,
          currentCard := none, roundStartTime := none,
          scores := [(room2.creatorId, 0), (guestId, 0)],
          isActive := true, currentGuesser := some room2.creatorId }
        { room2 with status := "PLAYING" } card now, ?_, rfl, rfl⟩
    exact startNewRound_success_session _ roomId (some gameId) card rest now _ _
      (alookup_aset_self _ _ _)
      (by rw [alookup_updateRoomStatus]
          simp [h2])

/-- C4 witness for the amended claim, at the concrete fixture: the room row
is already `PLAYING` and the gateway world already holds the guessed
session. -/
theorem c4_duplicate_start_amended_witness :
    roomsStartGame [("r", { roomAB with status := "PLAYING" })] "r" "a"
      = .error (.badRequest "Game has already started or finished")
    ∧ ∃ gs', alookup (handleStartGame guessedW.1 "a" "r" "g2"
          [cardBo] 200).1.gameStates "r" = some gs'
        ∧ gs'.scores = [(roomAB.creatorId, 0), ("b", 0)]
        ∧ gs'.currentRound = 1 :=
  c4_duplicate_start_amended
    [("r", { roomAB with status := "PLAYING" })] "r" "a"
    { roomAB with status := "PLAYING" } (by decide) (by decide) (by decide) (by decide)
    guessedW.1 "g2" { roomAB with status := "PLAYING" } "b"
    cardBo [] 200 sessionAfterGuess
    (by decide) (by decide) (by decide) (by decide)

/-- C9: in every reachable world, every stored score is a multiple of 10;
and across any single further transition, a session that persists either
keeps each player score or raises it by exactly 10 (so scores never
decrease), while a freshly installed session has all scores 0. -/
theorem c9_scores_invariant (w : World) (hw : Reachable w) :
    (∀ roomId gs, alookup w.gameStates roomId = some gs →
        ∀ p s, alookup gs.scores p = some s → 10 ∣ s)
    ∧ (∀ w', Step w w' → ∀ roomId gs gs',
        alookup w.gameStates roomId = some gs →
        alookup w'.gameStates roomId = some gs' →
        (∀ p s s', alookup gs.scores p = some s → alookup gs'.scores p = some s' →
            s' = s ∨ s' = s + 10)
        ∨ (∀ p s, alookup gs'.scores p = some s → s = 0)) := by
  refine ⟨scoresDiv_reachable w hw, ?_⟩
  intro w' hstep roomId gs gs' hgs hgs'
  rcases step_scores w w' hstep roomId gs' hgs' with
    ⟨gs0, hgs0, heq | ⟨u, hb⟩⟩ | ⟨cId, gId, hz⟩
  · have hg0 : gs0 = gs := Option.some.inj (hgs0.symm.trans hgs)
    subst hg0
    left
    intro p s s' hp hp'
    rw [heq, hp] at hp'
    exact Or.inl (Option.some.inj hp').symm
  · have hg0 : gs0 = gs := Option.some.inj (hgs0.symm.trans hgs)
    subst hg0
    left
    intro p s s' hp hp'
    rw [hb, alookup_bump10, hp] at hp'
    simp only [Option.map_some'] at hp'
    by_cases hpu : p = u
    · rw [if_pos hpu] at hp'
      exact Or.inr (Option.some.inj hp').symm
    · rw [if_neg hpu] at hp'
      exact Or.inl (Option.some.inj hp').symm
  · right
    intro p s hp
    rw [hz] at hp
    exact alookup_pair_zero _ _ _ _ hp

/-- C9 witness: the conclusion instantiated at the (trivially reachable)
initial world. -/
theorem c9_scores_invariant_witness :
    (∀ roomId gs, alookup (initWorld [] []).gameStates roomId = some gs →
        ∀ p s, alookup gs.scores p = some s → 10 ∣ s)
    ∧ (∀ w', Step (initWorld [] []) w' → ∀ roomId gs gs',
        alookup (initWorld [] []).gameStates roomId = some gs →
        alookup w'.gameStates roomId = some gs' →
        (∀ p s s', alookup gs.scores p = some s → alookup gs'.scores p = some s' →
            s' = s ∨ s' = s + 10)
        ∨ (∀ p s, alookup gs'.scores p = some s → s = 0)) :=
  c9_scores_invariant (initWorld [] []) ⟨[], [], Relation.ReflTransGen.refl⟩

end WhoAmI
